import Mathlib

/-!
Shallow embedding of `src/scripts/wifimon.py`, a curses-based Wi-Fi monitor.

The script is a single polling-and-render loop.  We embed:
  * `get_dashes` (lines 107-110) — the percentage bar;
  * `printl` (lines 83-100) — the line writer over a window of `height`
    rows, with the overflow recovery path (`lineno = 0; win.refresh(); raise`);
  * `refresh_window` (lines 113-159) — the per-snapshot render, modelled as
    the exact ordered list of `printl` calls the source makes, executed
    sequentially with exception short-circuiting;
  * the `main` loop and teardown (lines 162-179), as a trace semantics
    `run_loop` / `run_main` over a script of per-iteration inputs
    (`getch` results and interrupt deliveries), recording the observable
    events (`initscr` at module import, `setup`, renders, `tear_down`).

Machine state is exact: line numbers and counters are `Nat`, the screen log
is the chronological list of `addstr` writes with their attributes.
-/

deriving instance DecidableEq for Except

/-- Color names available through `colors_map` (source lines 60-64). -/
inductive Color where
  | green
  | red
  | blue
deriving DecidableEq, Repr

/-- Source `colors_map = dict(green=35, red=10, blue=5)`: the curses
color-pair number chosen for each named color. -/
def colors_map : Color → Nat
  | Color.green => 35
  | Color.red => 10
  | Color.blue => 5

/-- Address families as they reach `af_map` through `psutil.net_if_addrs`:
the three keys of `af_map` plus any other raw family value (kept as the
number the OS reported). -/
inductive Family where
  | AF_INET
  | AF_INET6
  | AF_LINK
  | other (value : Nat)
deriving DecidableEq, Repr

/-- Source `af_map = {AF_INET: 'IPv4', AF_INET6: 'IPv6', AF_LINK: 'MAC'}`
(lines 55-59), as the keyed lookup the dict is, with misses as `none`. -/
def af_map : Family → Option String
  | Family.AF_INET => some "IPv4"
  | Family.AF_INET6 => some "IPv6"
  | Family.AF_LINK => some "MAC"
  | Family.other _ => none

/-- Python `"%s"` rendering of a raw address-family value, used when
`af_map` has no entry for it.  The three known families never reach this
fallback; an unrecognized numeric family renders as its number. -/
def fam_str : Family → String
  | Family.AF_INET => "AddressFamily.AF_INET"
  | Family.AF_INET6 => "AddressFamily.AF_INET6"
  | Family.AF_LINK => "AddressFamily.AF_LINK"
  | Family.other value => toString value

/-- Source line 155: `proto = af_map.get(addr.family, addr.family)` —
the dict lookup with the raw family as the default. -/
def af_label (f : Family) : String := (af_map f).getD (fam_str f)

/-- One entry of `psutil.net_if_addrs()[ifname]`: family and address. -/
structure Addr where
  family : Family
  address : String
deriving DecidableEq, Repr

/-- Fields of one `psutil.wifi_ifaces()` entry that `refresh_window` reads. -/
structure WifiInfo where
  proto : String
  essid : String
  quality_percent : Nat
  signal : Int
  signal_percent : Nat
  bssid : String
  mode : String
  freq : Nat
  txpower : Nat
  power_save : Bool
  beacons : Nat
  discard_nwid : Nat
  discard_crypt : Nat
  discard_frag : Nat
  discard_retry : Nat
  discard_misc : Nat
deriving DecidableEq, Repr

/-- Fields of `psutil.net_io_counters(pernic=True)[ifname]` that the
script reads. -/
structure IOCounters where
  bytes_sent : Nat
  bytes_recv : Nat
deriving DecidableEq, Repr

/-- One refresh cycle's input snapshot: the `wifi_ifaces()` mapping in
iteration order, plus per-interface traffic counters and address lists. -/
structure Snapshot where
  ifaces : List (String × WifiInfo)
  io : String → IOCounters
  addrs : String → List Addr

/-- Source `get_dashes` (lines 107-110):
`dashes = "=" * int(float(perc) / 10 * 4)` and
`empty_dashes = " " * (40 - len(dashes))`.
For a whole-number percentage, `int(float(perc) / 10 * 4)` truncates the
exact value `perc * 4 / 10`, which is `Nat` division here; Python's
`" " * k` yields the empty string for negative `k`, which truncated `Nat`
subtraction reproduces. -/
def get_dashes (perc : Nat) : String × String :=
  (String.mk (List.replicate (perc * 4 / 10) '='),
   String.mk (List.replicate (40 - perc * 4 / 10) ' '))

/-- One `win.addstr(lineno, 0, line, flags)` write: the row, the text and
the attributes encoded in `flags`. -/
structure RenderLine where
  row : Nat
  text : String
  color : Option Color
  bold : Bool
  underline : Bool
deriving DecidableEq, Repr

/-- Mutable state of the render path: the global `lineno` cursor, the
chronological log of `addstr` writes, and the number of `win.refresh()`
calls made so far. -/
structure RState where
  lineno : Nat
  out : List RenderLine
  refreshes : Nat
deriving DecidableEq, Repr

/-- Source `printl` (lines 83-100).  `win.addstr` raises `curses.error`
when the cursor is outside the window's `height` rows; the handler then
does `lineno = 0`, `win.refresh()` and re-raises (modelled by returning
`Except.error` with the recovered state); on success `lineno += 1`. -/
def printl (height : Nat) (line : String) (color : Option Color)
    (bold : Bool) (underline : Bool) (st : RState) : Except RState RState :=
  if st.lineno < height then
    Except.ok ⟨st.lineno + 1,
      st.out ++ [⟨st.lineno, line, color, bold, underline⟩],
      st.refreshes⟩
  else
    Except.error ⟨0, st.out, st.refreshes + 1⟩

/-- Text and attributes of one `printl` call made by `refresh_window`. -/
structure PrintSpec where
  text : String
  color : Option Color
  bold : Bool
  underline : Bool
deriving DecidableEq, Repr

/-- Run one recorded `printl` call. -/
def printl_spec (height : Nat) (st : RState) (s : PrintSpec) : Except RState RState :=
  printl height s.text s.color s.bold s.underline st

/-- Source `print_title` (lines 103-104): `color="blue", bold=True,
underline=True`. -/
def title_spec (line : String) : PrintSpec := ⟨line, some Color.blue, true, true⟩

/-- Plain `printl(line)` call with the default attributes. -/
def plain_spec (line : String) : PrintSpec := ⟨line, none, false, false⟩

/-- Bar line `"    [%s%s]" % get_dashes(perc)` printed with
`color="green" if perc >= 50 else "red"` and `bold=True`
(source lines 122-125 for quality, 129-132 for signal). -/
def bar_spec (perc : Nat) : PrintSpec :=
  ⟨"    [" ++ (get_dashes perc).1 ++ (get_dashes perc).2 ++ "]",
   some (if 50 ≤ perc then Color.green else Color.red), true, false⟩

/-- Address line `"    %s: %s" % (proto, addr.address)` (line 156). -/
def addr_spec (a : Addr) : PrintSpec :=
  ⟨"    " ++ af_label a.family ++ ": " ++ a.address, none, false, false⟩

/-- Value with one decimal digit: `v` tenths rendered as `"d.d"`. -/
def dec1 (v : Nat) : String := toString (v / 10) ++ "." ++ toString (v % 10)

/-- Modelled from the spec: `bytes2human` lives in `psutil._common`, which
is not under `src/`.  The spec describes "human-readable (binary-scaled,
e.g. \"7.8G\") ... byte counts" with examples 8,406,668,388 → "7.8G",
1,031,322,354 → "983.5M", 0 → "0.0B": the value is scaled by the largest
binary prefix (K=2^10 … Y=2^80) not exceeding it and shown with one
decimal digit (truncated here; no claim depends on the final digit's
rounding), or as `"<n>.0B"` when below 2^10. -/
def bytes2human (n : Nat) : String :=
  if 2 ^ 80 ≤ n then dec1 (n * 10 / 2 ^ 80) ++ "Y"
  else if 2 ^ 70 ≤ n then dec1 (n * 10 / 2 ^ 70) ++ "Z"
  else if 2 ^ 60 ≤ n then dec1 (n * 10 / 2 ^ 60) ++ "E"
  else if 2 ^ 50 ≤ n then dec1 (n * 10 / 2 ^ 50) ++ "P"
  else if 2 ^ 40 ≤ n then dec1 (n * 10 / 2 ^ 40) ++ "T"
  else if 2 ^ 30 ≤ n then dec1 (n * 10 / 2 ^ 30) ++ "G"
  else if 2 ^ 20 ≤ n then dec1 (n * 10 / 2 ^ 20) ++ "M"
  else if 2 ^ 10 ≤ n then dec1 (n * 10 / 2 ^ 10) ++ "K"
  else toString n ++ ".0B"

/-- Python `"%6s"` padding: right-aligned in a field of width 6. -/
def pad6 (s : String) : String := String.mk (List.replicate (6 - s.length) ' ') ++ s

/-- Little-endian decimal digits of a number, with explicit fuel so the
definition is structurally recursive (and hence kernel-reducible);
`rev_digits` instantiates the fuel with the number itself, which always
suffices since `n / 10 < n` for positive `n`. -/
def rev_digits_fuel : Nat → Nat → List Nat
  | 0, _ => []
  | _ + 1, 0 => []
  | fuel + 1, m + 1 => (m + 1) % 10 :: rev_digits_fuel fuel ((m + 1) / 10)

/-- Little-endian decimal digits of `n` (empty for 0). -/
def rev_digits (n : Nat) : List Nat := rev_digits_fuel n n

/-- Decimal digit as a character: `0 ↦ '0', …, 9 ↦ '9'`. -/
def digit_char (d : Nat) : Char := Char.ofNat (48 + d)

/-- Thousands grouping over a little-endian digit string: a `','` is put
after every three digits when more digits remain.  The counter is the
number of digits still to emit in the current group. -/
def comma_group : Nat → List Char → List Char
  | _, [] => []
  | 0, c :: rest => ',' :: c :: comma_group 2 rest
  | k + 1, c :: rest => c :: comma_group k rest

/-- Python `"{0:,}".format(n)` (source lines 137 and 139): the decimal
form of `n` with thousands separated by commas. -/
def comma_format (n : Nat) : String :=
  if n = 0 then "0"
  else String.mk (comma_group 3 ((rev_digits n).map digit_char)).reverse

/-- Big-endian decimal parse, as `int()` applied to a digit string. -/
def parse_dec (cs : List Char) : Nat :=
  cs.foldl (fun acc c => acc * 10 + (c.toNat - 48)) 0

/-- Value of a little-endian digit-character string. -/
def le_val : List Char → Nat
  | [] => 0
  | c :: rest => (c.toNat - 48) + 10 * le_val rest

/-- Lines printed for one interface by the body of `refresh_window`'s
`for` loop (source lines 115-156), in source order. -/
def iface_lines (ifname : String) (info : WifiInfo) (ioc : IOCounters)
    (addrs : List Addr) : List PrintSpec :=
  [title_spec "Interface",
   plain_spec ("    " ++ ifname ++ " (" ++ info.proto ++ ")"),
   plain_spec ("    SSID: " ++ info.essid),
   title_spec "Levels",
   plain_spec ("    Link quality: " ++ toString info.quality_percent ++ "%"),
   bar_spec info.quality_percent,
   plain_spec ("    Signal level: " ++ toString info.signal ++ " dBm ("
     ++ toString info.signal_percent ++ "%)"),
   bar_spec info.signal_percent,
   title_spec "Statistics",
   plain_spec ("    RX (recv): " ++ pad6 (bytes2human ioc.bytes_recv)
     ++ " (" ++ pad6 (comma_format ioc.bytes_recv) ++ ")"),
   plain_spec ("    TX (sent): " ++ pad6 (bytes2human ioc.bytes_sent)
     ++ " (" ++ pad6 (comma_format ioc.bytes_sent) ++ ")"),
   title_spec "Info",
   plain_spec ("    Connected to: " ++ info.bssid),
   plain_spec ("    Mode: " ++ info.mode),
   plain_spec ("    Freq: " ++ toString info.freq ++ " MHz"),
   plain_spec ("    TX-Power: " ++ toString info.txpower ++ " dBm"),
   plain_spec ("    Power save: " ++ (if info.power_save then "on" else "off")),
   plain_spec ("    Beacons: " ++ toString info.beacons ++ ", Nwid: "
     ++ toString info.discard_nwid ++ ", Crypt: " ++ toString info.discard_crypt),
   plain_spec ("    Frag: " ++ toString info.discard_frag ++ ", Retry: "
     ++ toString info.discard_retry ++ ", Misc: " ++ toString info.discard_misc),
   title_spec ("Addresses (" ++ ifname ++ ")")]
  ++ addrs.map addr_spec

/-- All lines of one `refresh_window` call: every interface's section in
order, then the final `printl("")` of line 158. -/
def window_lines (snap : Snapshot) : List PrintSpec :=
  (snap.ifaces.map fun p => iface_lines p.1 p.2 (snap.io p.1) (snap.addrs p.1)).flatten
    ++ [plain_spec ""]

/-- Run a sequence of `printl` calls, stopping at the first raised
`curses.error` exactly as straight-line Python code does. -/
def print_lines (height : Nat) : List PrintSpec → RState → Except RState RState
  | [], st => Except.ok st
  | s :: rest, st =>
    match printl height s.text s.color s.bold s.underline st with
    | Except.error e => Except.error e
    | Except.ok st' => print_lines height rest st'

/-- Source `refresh_window` (lines 113-159): print every line of the
snapshot, then `win.refresh()`.  An exception from any `printl`
propagates to the caller untouched. -/
def refresh_window (height : Nat) (snap : Snapshot) (st : RState) : Except RState RState :=
  match print_lines height (window_lines snap) st with
  | Except.error e => Except.error e
  | Except.ok st' => Except.ok ⟨st'.lineno, st'.out, st'.refreshes + 1⟩

/-- Observable events of a program run: `curses.initscr()` at module
load (line 53), `setup()` (line 168), one `refresh_window` call, and
`tear_down()` (lines 76-80). -/
inductive Ev where
  | initscr
  | setup
  | render
  | teardown
deriving DecidableEq, Repr

/-- Input consumed by one loop iteration: the `win.getch()` result
(`-1` when no key is pending), or a `KeyboardInterrupt` delivered at
that point. -/
inductive LoopStep where
  | key (c : Int)
  | interrupt
deriving DecidableEq, Repr

/-- How the `while True` loop ended (or that the supplied input script
ran out while it was still running). -/
inductive LoopEnd where
  | quit (st : RState)
  | interrupted (st : RState)
  | renderError (e : RState)
  | running (st : RState)
deriving DecidableEq, Repr

/-- Process-level outcome: `sys.exit` (code and optional message), a
crash from an exception that escaped `main` after the `finally` block,
or still inside the loop when the input script ran out. -/
inductive RunResult where
  | exited (code : Nat) (msg : Option String)
  | crashed (code : Nat)
  | stillRunning
deriving DecidableEq, Repr

/-- Source lines 170-175: each iteration reads `getch`; `ord('q') = 113`
breaks; otherwise `refresh_window()` runs, `lineno` is reset to 0 and the
loop continues (the 200 ms sleep has no observable effect here).  A
`KeyboardInterrupt` ends the loop via the `except` clause; a
`curses.error` from the render propagates. -/
def run_loop (height : Nat) (snap : Snapshot) : List LoopStep → RState → List Ev × LoopEnd
  | [], st => ([], LoopEnd.running st)
  | LoopStep.interrupt :: _, st => ([], LoopEnd.interrupted st)
  | LoopStep.key c :: rest, st =>
    if c = 113 then ([], LoopEnd.quit st)
    else
      match refresh_window height snap st with
      | Except.error e => ([Ev.render], LoopEnd.renderError e)
      | Except.ok st' =>
        (Ev.render :: (run_loop height snap rest ⟨0, st'.out, st'.refreshes⟩).1,
         (run_loop height snap rest ⟨0, st'.out, st'.refreshes⟩).2)

/-- What the host offers: whether `psutil` has the `wifi_ifaces`
attribute, and the snapshot its statistics APIs report. -/
structure Platform where
  has_wifi_ifaces : Bool
  snap : Snapshot

/-- Source `main` (lines 162-179) together with the module-import effect
`win = curses.initscr()` of line 53: check the platform capability, check
for interfaces (both `sys.exit` with a message, exit code 1), then
`setup()`, the loop, and — in `finally` — `tear_down()` on every path out
of it.  A normal return from `main` exits with code 0; a propagated
`curses.error` crashes the process after teardown. -/
def run_main (p : Platform) (height : Nat) (script : List LoopStep) : List Ev × RunResult :=
  if p.has_wifi_ifaces = false then
    ([Ev.initscr], RunResult.exited 1 (some "platform not supported"))
  else if p.snap.ifaces = [] then
    ([Ev.initscr], RunResult.exited 1 (some "no Wi-Fi interfaces installed"))
  else
    match run_loop height p.snap script ⟨0, [], 0⟩ with
    | (evs, LoopEnd.quit _) =>
      (Ev.initscr :: Ev.setup :: evs ++ [Ev.teardown], RunResult.exited 0 none)
    | (evs, LoopEnd.interrupted _) =>
      (Ev.initscr :: Ev.setup :: evs ++ [Ev.teardown], RunResult.exited 0 none)
    | (evs, LoopEnd.renderError _) =>
      (Ev.initscr :: Ev.setup :: evs ++ [Ev.teardown], RunResult.crashed 1)
    | (evs, LoopEnd.running _) =>
      (Ev.initscr :: Ev.setup :: evs, RunResult.stillRunning)

/-- Number of `tear_down()` events in a trace. -/
def count_td : List Ev → Nat
  | [] => 0
  | Ev.initscr :: rest => count_td rest
  | Ev.setup :: rest => count_td rest
  | Ev.render :: rest => count_td rest
  | Ev.teardown :: rest => count_td rest + 1

/-- Whether one full render of the snapshot fits the window when started
at line 0 (so the loop keeps cycling instead of raising). -/
def render_ok (height : Nat) (snap : Snapshot) : Bool :=
  match refresh_window height snap ⟨0, [], 0⟩ with
  | Except.ok _ => true
  | Except.error _ => false

/-- Relocation of a state produced by a run that started with empty log
and zero refreshes into the context of a run started with log `o` and
refresh count `r`. -/
def out_shift (o : List RenderLine) (r : Nat) (st : RState) : RState :=
  ⟨st.lineno, o ++ st.out, r + st.refreshes⟩

/-- `out_shift` applied under `Except`. -/
def eshift (o : List RenderLine) (r : Nat) : Except RState RState → Except RState RState
  | Except.ok st => Except.ok (out_shift o r st)
  | Except.error e => Except.error (out_shift o r e)

/-- Sample interface data, taken from the docstring example of the
source (lines 12-34). -/
def info1 : WifiInfo :=
  ⟨"IEEE 802.11", "ALHN-68DF", 64, -65, 45, "68:D4:82:7D:1A:95", "managed",
   2412, 22, true, 0, 0, 0, 0, 135, 4086⟩

/-- Sample snapshot with one interface and two bound addresses. -/
def snap1 : Snapshot :=
  ⟨[("wlp3s0", info1)],
   fun _ => ⟨1031322354, 8406668388⟩,
   fun _ => [⟨Family.AF_INET, "192.168.1.6"⟩, ⟨Family.AF_LINK, "48:45:20:59:a4:0c"⟩]⟩

/-- Platform exposing `wifi_ifaces` with the sample snapshot. -/
def plat1 : Platform := ⟨true, snap1⟩

/-- Platform exposing `wifi_ifaces` that reports zero interfaces. -/
def plat_empty : Platform := ⟨true, ⟨[], fun _ => ⟨0, 0⟩, fun _ => []⟩⟩

/-- State after one successful render of `snap1` in a 64-row window. -/
def st1_0 : RState :=
  match refresh_window 64 snap1 ⟨0, [], 0⟩ with
  | Except.ok st => st
  | Except.error e => e

/-- Relocation composes. -/
theorem eshift_comp (o o2 : List RenderLine) (r r2 : Nat) (x : Except RState RState) :
    eshift o r (eshift o2 r2 x) = eshift (o ++ o2) (r + r2) x := by
  cases x <;> simp [eshift, out_shift, List.append_assoc, Nat.add_assoc]

/-- Single `printl` calls only append to the log and add to the refresh
count: a run from `⟨l, o, r⟩` is the run from `⟨l, [], 0⟩` relocated. -/
theorem printl_shift (hh : Nat) (t : String) (c : Option Color) (b u : Bool)
    (l : Nat) (o : List RenderLine) (r : Nat) :
    printl hh t c b u ⟨l, o, r⟩ = eshift o r (printl hh t c b u ⟨l, [], 0⟩) := by
  by_cases hl : l < hh <;> simp [printl, hl, eshift, out_shift]

/-- Runs of a line sequence relocate: output and refresh count produced
from an arbitrary start state are those produced from the empty log,
appended to it. -/
theorem print_lines_shift : ∀ (specs : List PrintSpec) (hh l : Nat)
    (o : List RenderLine) (r : Nat),
    print_lines hh specs ⟨l, o, r⟩ = eshift o r (print_lines hh specs ⟨l, [], 0⟩) := by
  intro specs
  induction specs with
  | nil => intro hh l o r; simp [print_lines, eshift, out_shift]
  | cons s ss ih =>
    intro hh l o r
    by_cases hl : l < hh
    · have hstep : ∀ (o2 : List RenderLine) (r2 : Nat),
        print_lines hh (s :: ss) ⟨l, o2, r2⟩ =
          print_lines hh ss ⟨l + 1, o2 ++ [⟨l, s.text, s.color, s.bold, s.underline⟩], r2⟩ := by
        intro o2 r2
        simp [print_lines, printl, hl]
      rw [hstep o r, hstep [] 0]
      generalize (⟨l, s.text, s.color, s.bold, s.underline⟩ : RenderLine) = w
      simp only [List.nil_append]
      rw [ih hh (l + 1) (o ++ [w]) r, ih hh (l + 1) [w] 0, eshift_comp]
      simp
    · simp [print_lines, printl, hl, eshift, out_shift]

/-- Any error escaping a `printl` sequence left the cursor at 0 and
forced exactly one extra refresh. -/
theorem print_lines_err : ∀ (specs : List PrintSpec) (hh : Nat) (st : RState)
    (e : RState), print_lines hh specs st = Except.error e →
    e.lineno = 0 ∧ e.refreshes = st.refreshes + 1 := by
  intro specs
  induction specs with
  | nil => intro hh st e h; simp [print_lines] at h
  | cons s ss ih =>
    intro hh st e h
    by_cases hl : st.lineno < hh
    · rw [show print_lines hh (s :: ss) st = print_lines hh ss
          ⟨st.lineno + 1, st.out ++ [⟨st.lineno, s.text, s.color, s.bold, s.underline⟩],
            st.refreshes⟩ from by simp [print_lines, printl, hl]] at h
      exact ih hh ⟨st.lineno + 1,
        st.out ++ [⟨st.lineno, s.text, s.color, s.bold, s.underline⟩], st.refreshes⟩ e h
    · rw [show print_lines hh (s :: ss) st
          = Except.error ⟨0, st.out, st.refreshes + 1⟩ from by
            simp [print_lines, printl, hl]] at h
      injection h with h2
      subst h2
      exact ⟨rfl, rfl⟩

/-- Whole-render relocation: `refresh_window` from an arbitrary start
state is the canonical run from line 0 with empty log, relocated. -/
theorem refresh_window_shift (hh : Nat) (snap : Snapshot) (l : Nat)
    (o : List RenderLine) (r : Nat) :
    refresh_window hh snap ⟨l, o, r⟩ = eshift o r (refresh_window hh snap ⟨l, [], 0⟩) := by
  unfold refresh_window
  rw [print_lines_shift (window_lines snap) hh l o r]
  cases hpl : print_lines hh (window_lines snap) ⟨l, [], 0⟩ with
  | error e => simp [eshift]
  | ok st => simp [eshift, out_shift, Nat.add_assoc]

/-- Any error escaping `refresh_window` left the cursor at 0 and forced
exactly one extra refresh. -/
theorem refresh_window_err (hh : Nat) (snap : Snapshot) (st : RState) (e : RState) :
    refresh_window hh snap st = Except.error e →
    e.lineno = 0 ∧ e.refreshes = st.refreshes + 1 := by
  unfold refresh_window
  cases hpl : print_lines hh (window_lines snap) st with
  | error e2 =>
    intro h
    injection h with h2
    subst h2
    exact print_lines_err (window_lines snap) hh st e2 hpl
  | ok st2 => intro h; simp at h

/-- The loop body never tears the terminal down: `tear_down()` lives only
in `main`'s `finally` block. -/
theorem run_loop_no_td (hh : Nat) (snap : Snapshot) : ∀ (s : List LoopStep) (st : RState),
    count_td (run_loop hh snap s st).1 = 0 := by
  intro s
  induction s with
  | nil => intro st; simp [run_loop, count_td]
  | cons step rest ih =>
    intro st
    cases step with
    | interrupt => simp [run_loop, count_td]
    | key c =>
      by_cases hc : c = 113
      · simp [run_loop, hc, count_td]
      · cases hrw : refresh_window hh snap st with
        | error e => simp [run_loop, hc, hrw, count_td]
        | ok st2 => simp [run_loop, hc, hrw, count_td, ih]

/-- If the input script runs out while the loop is still going, feeding
more steps continues the same run from the reached state. -/
theorem run_loop_append_running (hh : Nat) (snap : Snapshot) :
    ∀ (s : List LoopStep) (st : RState) (evs : List Ev) (st1 : RState),
      run_loop hh snap s st = (evs, LoopEnd.running st1) →
      ∀ t, run_loop hh snap (s ++ t) st =
        (evs ++ (run_loop hh snap t st1).1, (run_loop hh snap t st1).2) := by
  intro s
  induction s with
  | nil =>
    intro st evs st1 h t
    simp only [run_loop] at h
    rw [Prod.mk.injEq] at h
    obtain ⟨h1, h2⟩ := h
    injection h2 with h3
    subst h1
    subst h3
    simp [run_loop]
  | cons step rest ih =>
    intro st evs st1 h t
    cases step with
    | interrupt => simp [run_loop] at h
    | key c =>
      by_cases hc : c = 113
      · simp [run_loop, hc] at h
      · cases hrw : refresh_window hh snap st with
        | error e => simp [run_loop, hc, hrw] at h
        | ok st2 =>
          rw [show run_loop hh snap (LoopStep.key c :: rest) st
              = (Ev.render :: (run_loop hh snap rest ⟨0, st2.out, st2.refreshes⟩).1,
                 (run_loop hh snap rest ⟨0, st2.out, st2.refreshes⟩).2) from by
            simp [run_loop, hc, hrw]] at h
          rw [Prod.mk.injEq] at h
          obtain ⟨h1, h2⟩ := h
          subst h1
          have hx : run_loop hh snap rest ⟨0, st2.out, st2.refreshes⟩
              = ((run_loop hh snap rest ⟨0, st2.out, st2.refreshes⟩).1, LoopEnd.running st1) := by
            rw [← h2]
          have ha := ih ⟨0, st2.out, st2.refreshes⟩
            (run_loop hh snap rest ⟨0, st2.out, st2.refreshes⟩).1 st1 hx t
          rw [show (LoopStep.key c :: rest) ++ t = LoopStep.key c :: (rest ++ t) from rfl]
          simp [run_loop, hc, hrw, ha]

/-- The loop's running state keeps the cursor at line 0 (it starts there
and every iteration resets it). -/
theorem run_loop_run_lineno (hh : Nat) (snap : Snapshot) :
    ∀ (s : List LoopStep) (st : RState) (evs : List Ev) (st1 : RState),
      run_loop hh snap s st = (evs, LoopEnd.running st1) → st.lineno = 0 → st1.lineno = 0 := by
  intro s
  induction s with
  | nil =>
    intro st evs st1 h h0
    rw [Prod.mk.injEq] at h
    have h2 := h.2
    injection h2 with h3
    rw [← h3]
    exact h0
  | cons step rest ih =>
    intro st evs st1 h h0
    cases step with
    | interrupt => simp [run_loop] at h
    | key c =>
      by_cases hc : c = 113
      · simp [run_loop, hc] at h
      · cases hrw : refresh_window hh snap st with
        | error e => simp [run_loop, hc, hrw] at h
        | ok st2 =>
          rw [show run_loop hh snap (LoopStep.key c :: rest) st
              = (Ev.render :: (run_loop hh snap rest ⟨0, st2.out, st2.refreshes⟩).1,
                 (run_loop hh snap rest ⟨0, st2.out, st2.refreshes⟩).2) from by
            simp [run_loop, hc, hrw]] at h
          rw [Prod.mk.injEq] at h
          have hx : run_loop hh snap rest ⟨0, st2.out, st2.refreshes⟩
              = ((run_loop hh snap rest ⟨0, st2.out, st2.refreshes⟩).1, LoopEnd.running st1) := by
            rw [← h.2]
          exact ih ⟨0, st2.out, st2.refreshes⟩ _ st1 hx rfl

/-- Teardown counting distributes over trace concatenation. -/
theorem count_td_append : ∀ (a b : List Ev), count_td (a ++ b) = count_td a + count_td b := by
  intro a b
  induction a with
  | nil => simp [count_td]
  | cons x rest ih => cases x <;> simp [count_td, ih] <;> omega

/-- Fuel is irrelevant for `rev_digits_fuel` once it covers the number. -/
theorem rev_digits_fuel_congr : ∀ (f1 f2 n : Nat), n ≤ f1 → n ≤ f2 →
    rev_digits_fuel f1 n = rev_digits_fuel f2 n := by
  intro f1
  induction f1 with
  | zero =>
    intro f2 n h1 h2
    have hn : n = 0 := Nat.le_zero.mp h1
    subst hn
    cases f2 <;> simp [rev_digits_fuel]
  | succ f ih =>
    intro f2 n h1 h2
    cases n with
    | zero => cases f2 <;> simp [rev_digits_fuel]
    | succ m =>
      cases f2 with
      | zero => omega
      | succ f2m =>
        have hd : (m + 1) / 10 < m + 1 := Nat.div_lt_self (Nat.succ_pos m) (by omega)
        simp only [rev_digits_fuel]
        rw [ih f2m ((m + 1) / 10) (by omega) (by omega)]

/-- Unfolding equation of `rev_digits` on a positive number. -/
theorem rev_digits_succ (n : Nat) (hn : n ≠ 0) :
    rev_digits n = n % 10 :: rev_digits (n / 10) := by
  cases n with
  | zero => exact absurd rfl hn
  | succ m =>
    show rev_digits_fuel (m + 1) (m + 1) = _
    have hd : (m + 1) / 10 < m + 1 := Nat.div_lt_self (Nat.succ_pos m) (by omega)
    simp only [rev_digits_fuel]
    rw [rev_digits_fuel_congr m ((m + 1) / 10) ((m + 1) / 10) (by omega) (by omega)]
    rfl

/-- Every extracted decimal digit is below 10. -/
theorem rev_digits_lt (n : Nat) : ∀ d ∈ rev_digits n, d < 10 := by
  induction n using Nat.strong_induction_on with
  | _ n ih =>
    cases n with
    | zero => intro d hd; simp [rev_digits, rev_digits_fuel] at hd
    | succ m =>
      rw [rev_digits_succ (m + 1) (Nat.succ_ne_zero m)]
      intro d hd
      rcases List.mem_cons.mp hd with h | h
      · subst h; exact Nat.mod_lt _ (by omega)
      · exact ih ((m + 1) / 10) (Nat.div_lt_self (Nat.succ_pos m) (by omega)) d h

/-- Digit characters are digits, not commas, and carry their value. -/
theorem digit_char_spec : ∀ d, d < 10 → digit_char d ≠ ',' ∧ (digit_char d).toNat = 48 + d := by
  decide

/-- The little-endian digit characters of `n` evaluate back to `n`. -/
theorem le_val_rev_digits (n : Nat) : le_val ((rev_digits n).map digit_char) = n := by
  induction n using Nat.strong_induction_on with
  | _ n ih =>
    cases n with
    | zero => simp [rev_digits, rev_digits_fuel, le_val]
    | succ m =>
      rw [rev_digits_succ (m + 1) (Nat.succ_ne_zero m)]
      simp only [List.map_cons, le_val]
      rw [(digit_char_spec ((m + 1) % 10) (Nat.mod_lt _ (by omega))).2]
      rw [ih ((m + 1) / 10) (Nat.div_lt_self (Nat.succ_pos m) (by omega))]
      omega

/-- Removing the commas that `comma_group` inserted recovers the digits. -/
theorem filter_comma_group : ∀ (l : List Char) (k : Nat), (∀ c ∈ l, c ≠ ',') →
    (comma_group k l).filter (fun c => c != ',') = l := by
  intro l
  induction l with
  | nil => intro k h; cases k <;> simp [comma_group]
  | cons c rest ih =>
    intro k hc
    have hcne : c ≠ ',' := hc c (List.mem_cons_self c rest)
    have hrest : ∀ x ∈ rest, x ≠ ',' := fun x hx => hc x (List.mem_cons_of_mem c hx)
    cases k with
    | zero =>
      simp only [comma_group, List.filter_cons]
      simp [hcne, ih 2 hrest]
    | succ k =>
      simp only [comma_group, List.filter_cons]
      simp [hcne, ih k hrest]

/-- Parsing a big-endian digit string is evaluating its reversal
little-endian. -/
theorem parse_dec_reverse : ∀ l : List Char, parse_dec l.reverse = le_val l := by
  intro l
  unfold parse_dec
  rw [List.foldl_reverse]
  induction l with
  | nil => simp [le_val]
  | cons c rest ih =>
    simp only [List.foldr_cons, le_val]
    rw [ih]
    omega

/-- C1: for every quality/signal percentage `p` in `[0, 100]`, the bar
produced by `get_dashes` has a filled-character count equal to
`⌊p / 10 × 4⌋`, and the filled plus empty character counts together are
exactly 40. -/
theorem wifimon_C1 (p : Nat) (hp : p ≤ 100) :
    (get_dashes p).1.length = p * 4 / 10 ∧
    (get_dashes p).1.length + (get_dashes p).2.length = 40 := by
  have h1 : (get_dashes p).1.length = p * 4 / 10 := by
    simp [get_dashes, String.length]
  have h2 : (get_dashes p).2.length = 40 - p * 4 / 10 := by
    simp [get_dashes, String.length]
  have hle : p * 4 / 10 ≤ 40 :=
    le_trans (Nat.div_le_div_right (by omega : p * 4 ≤ 400)) (by norm_num)
  exact ⟨h1, by omega⟩

/-- Witness for C1 at the docstring's quality percentage 64: the bar has
25 filled and 15 empty characters. -/
theorem wifimon_C1_witness :
    (get_dashes 64).1.length = 64 * 4 / 10 ∧
    (get_dashes 64).1.length + (get_dashes 64).2.length = 40 :=
  wifimon_C1 64 (by decide)

/-- Counterexample to C10 as stated: at `p = 101 > 100` the empty segment
is indeed empty and the total bar width equals `⌊101 / 10 × 4⌋ = 40`, so
the total does not exceed 40 — and the fixed-40-character invariant holds
at a percentage outside `[0, 100]`. -/
theorem wifimon_C10_cex :
    (get_dashes 101).2 = "" ∧
    (get_dashes 101).1.length + (get_dashes 101).2.length = 101 * 4 / 10 ∧
    ¬ (40 < (get_dashes 101).1.length + (get_dashes 101).2.length) := by
  decide

/-- C10 (amended): for every `p > 100` the empty segment is the empty
string (Python's negative or zero repeat count yields no characters), the
total bar width equals `⌊p / 10 × 4⌋`, which is at least 40 but exceeds
40 only once `p > 102`; hence the fixed-40-character invariant also holds
at `p = 101` and `p = 102` and fails exactly for `p > 102`. -/
theorem wifimon_C10_amended (p : Nat) (hp : 100 < p) :
    (get_dashes p).2 = "" ∧
    (get_dashes p).1.length + (get_dashes p).2.length = p * 4 / 10 ∧
    40 ≤ p * 4 / 10 ∧
    (102 < p ↔ 40 < p * 4 / 10) := by
  have h40 : 40 ≤ p * 4 / 10 := by
    rw [Nat.le_div_iff_mul_le (by omega : 0 < 10)]
    omega
  have hempty : 40 - p * 4 / 10 = 0 := by omega
  have h1 : (get_dashes p).1.length = p * 4 / 10 := by
    simp [get_dashes, String.length]
  have h2 : (get_dashes p).2 = "" := by
    simp [get_dashes, hempty]
  have h2len : (get_dashes p).2.length = 0 := by rw [h2]; rfl
  refine ⟨h2, by omega, h40, ?_⟩
  constructor
  · intro h103
    have : 41 ≤ p * 4 / 10 := by
      rw [Nat.le_div_iff_mul_le (by omega : 0 < 10)]
      omega
    omega
  · intro hgt
    have : 41 * 10 ≤ p * 4 := (Nat.le_div_iff_mul_le (by omega : 0 < 10)).mp (by omega)
    omega

/-- Witness for the amended C10 at `p = 103`: empty segment empty, total
width `⌊103 / 10 × 4⌋ = 41 > 40`. -/
theorem wifimon_C10_witness :
    (get_dashes 103).2 = "" ∧
    (get_dashes 103).1.length + (get_dashes 103).2.length = 103 * 4 / 10 ∧
    40 ≤ 103 * 4 / 10 ∧
    (102 < 103 ↔ 40 < 103 * 4 / 10) :=
  wifimon_C10_amended 103 (by decide)

/-- C2: the rendered bar line's color is green when the percentage is at
least 50 and red when it is below 50 (so exactly 50 selects green), and
the bar is printed bold; these are the bar lines `refresh_window` emits
at positions 5 (link quality) and 7 (signal) of each interface section. -/
theorem wifimon_C2 (p : Nat) (ifname : String) (info : WifiInfo)
    (ioc : IOCounters) (addrs : List Addr) :
    (50 ≤ p → (bar_spec p).color = some Color.green) ∧
    (p < 50 → (bar_spec p).color = some Color.red) ∧
    (bar_spec p).bold = true ∧
    (bar_spec 50).color = some Color.green ∧
    (iface_lines ifname info ioc addrs)[5]? = some (bar_spec info.quality_percent) ∧
    (iface_lines ifname info ioc addrs)[7]? = some (bar_spec info.signal_percent) := by
  refine ⟨?_, ?_, rfl, by decide, rfl, rfl⟩
  · intro h
    simp [bar_spec, if_pos h]
  · intro h
    simp [bar_spec, if_neg (by omega : ¬ 50 ≤ p)]

/-- Witness for C2 at the boundary 50 (green) and at 49 (red). -/
theorem wifimon_C2_witness :
    (bar_spec 50).color = some Color.green ∧ (bar_spec 49).color = some Color.red :=
  ⟨(wifimon_C2 50 "w" info1 ⟨0, 0⟩ []).1 (by decide),
   (wifimon_C2 49 "w" info1 ⟨0, 0⟩ []).2.1 (by decide)⟩

/-- C9: the comma-grouped rendering of any byte counter round-trips —
stripping the commas and parsing the decimal digits yields the original
value (this covers 0, 1234 and 8406668388 in particular). -/
theorem wifimon_C9 (n : Nat) :
    parse_dec ((comma_format n).data.filter (fun c => c != ',')) = n := by
  by_cases hn : n = 0
  · subst hn
    decide
  · rw [comma_format, if_neg hn]
    have hno : ∀ c ∈ (rev_digits n).map digit_char, c ≠ ',' := by
      intro c hc
      rcases List.mem_map.mp hc with ⟨d, hd, hdc⟩
      rw [← hdc]
      exact (digit_char_spec d (rev_digits_lt n d hd)).1
    show ((comma_group 3 ((rev_digits n).map digit_char)).reverse.filter
        (fun c => c != ',')).foldl (fun acc c => acc * 10 + (c.toNat - 48)) 0 = n
    rw [List.filter_reverse]
    rw [filter_comma_group ((rev_digits n).map digit_char) 3 hno]
    have := parse_dec_reverse ((rev_digits n).map digit_char)
    unfold parse_dec at this
    rw [this]
    exact le_val_rev_digits n

/-- C5: on overflow `printl` resets the line cursor to 0, forces one
buffer refresh, and re-raises the error to its caller; on success it
increments the line cursor by exactly 1; and the render path never
swallows the error — any error escaping `refresh_window` is the re-raised
one, still carrying cursor 0 and the forced refresh. -/
theorem wifimon_C5 (hh : Nat) (line : String) (c : Option Color) (b u : Bool)
    (st : RState) :
    (hh ≤ st.lineno →
      printl hh line c b u st = Except.error ⟨0, st.out, st.refreshes + 1⟩) ∧
    (st.lineno < hh →
      printl hh line c b u st =
        Except.ok ⟨st.lineno + 1,
          st.out ++ [⟨st.lineno, line, c, b, u⟩], st.refreshes⟩) ∧
    (∀ (snap : Snapshot) (e : RState), refresh_window hh snap st = Except.error e →
      e.lineno = 0 ∧ e.refreshes = st.refreshes + 1) := by
  refine ⟨?_, ?_, ?_⟩
  · intro h
    simp [printl, Nat.not_lt.mpr h]
  · intro h
    simp [printl, h]
  · intro snap e he
    exact refresh_window_err hh snap st e he

/-- Witness for C5: an overflow at cursor 5 in a 3-row window, a success
at cursor 0, and a propagated render error from a 0-row window. -/
theorem wifimon_C5_witness :
    printl 3 "x" none false false ⟨5, [], 0⟩ = Except.error ⟨0, [], 1⟩ ∧
    printl 3 "x" none false false ⟨0, [], 0⟩ =
      Except.ok ⟨1, [⟨0, "x", none, false, false⟩], 0⟩ ∧
    ((⟨0, [], 1⟩ : RState).lineno = 0 ∧
      (⟨0, [], 1⟩ : RState).refreshes = (⟨0, [], 0⟩ : RState).refreshes + 1) :=
  ⟨(wifimon_C5 3 "x" none false false ⟨5, [], 0⟩).1 (by decide),
   (wifimon_C5 3 "x" none false false ⟨0, [], 0⟩).2.1 (by decide),
   (wifimon_C5 0 "x" none false false ⟨0, [], 0⟩).2.2 snap1 ⟨0, [], 1⟩ (by decide)⟩

/-- C7: for a fixed input snapshot, running a second refresh cycle right
after a successful one — from the cursor-reset state `main` leaves behind
(`lineno = 0`, log and refresh count carried over) — appends exactly the
same rendered lines again: byte-identical text and attributes at the same
line positions, and the cursor ends at the same line. -/
theorem wifimon_C7 (hh : Nat) (snap : Snapshot) (st1 : RState)
    (h1 : refresh_window hh snap ⟨0, [], 0⟩ = Except.ok st1) :
    ∃ st2, refresh_window hh snap ⟨0, st1.out, st1.refreshes⟩ = Except.ok st2 ∧
      st2.out = st1.out ++ st1.out ∧ st2.lineno = st1.lineno := by
  refine ⟨out_shift st1.out st1.refreshes st1, ?_, rfl, rfl⟩
  rw [refresh_window_shift, h1]
  rfl

/-- Witness for C7 on the sample snapshot in a 64-row window. -/
theorem wifimon_C7_witness :
    ∃ st2, refresh_window 64 snap1 ⟨0, st1_0.out, st1_0.refreshes⟩ = Except.ok st2 ∧
      st2.out = st1_0.out ++ st1_0.out ∧ st2.lineno = st1_0.lineno :=
  wifimon_C7 64 snap1 st1_0 (by decide)

/-- C8: the family label rendered for an address binding is "IPv4" for
the IPv4 family, "IPv6" for the IPv6 family, "MAC" for the link-layer
family, and the raw family value itself for any unrecognized family; the
address line always renders (no crash) whenever the cursor is inside the
window. -/
theorem wifimon_C8 (f : Family) (a : Addr) (hh : Nat) (st : RState) :
    (f = Family.AF_INET → af_label f = "IPv4") ∧
    (f = Family.AF_INET6 → af_label f = "IPv6") ∧
    (f = Family.AF_LINK → af_label f = "MAC") ∧
    (∀ v, f = Family.other v → af_label f = toString v) ∧
    (st.lineno < hh → printl_spec hh st (addr_spec a) =
      Except.ok ⟨st.lineno + 1,
        st.out ++ [⟨st.lineno, "    " ++ af_label a.family ++ ": " ++ a.address,
          none, false, false⟩],
        st.refreshes⟩) := by
  refine ⟨?_, ?_, ?_, ?_, ?_⟩
  · intro h; subst h; rfl
  · intro h; subst h; rfl
  · intro h; subst h; rfl
  · intro v h; subst h; rfl
  · intro h
    simp [printl_spec, printl, addr_spec, h]

/-- Witness for C8 with the unrecognized family 7 at cursor 0 in a 2-row
window: the raw value is rendered and the line is written. -/
theorem wifimon_C8_witness :
    af_label (Family.other 7) = toString 7 ∧
    printl_spec 2 ⟨0, [], 0⟩ (addr_spec ⟨Family.other 7, "aa:bb"⟩) =
      Except.ok ⟨1, [⟨0, "    " ++ af_label (Family.other 7) ++ ": " ++ "aa:bb",
        none, false, false⟩], 0⟩ :=
  ⟨(wifimon_C8 (Family.other 7) ⟨Family.other 7, "aa:bb"⟩ 2 ⟨0, [], 0⟩).2.2.2.1 7 rfl,
   (wifimon_C8 (Family.other 7) ⟨Family.other 7, "aa:bb"⟩ 2 ⟨0, [], 0⟩).2.2.2.2 (by decide)⟩

/-- Counterexample to C3 as stated: with a capable platform reporting
zero interfaces, the run does exit non-zero with the descriptive message
before the loop, but the terminal screen IS initialized before that exit —
`win = curses.initscr()` on source line 53 runs at module import, before
`main`'s interface check, so `initscr` is in the trace. -/
theorem wifimon_C3_cex :
    plat_empty.has_wifi_ifaces = true ∧
    plat_empty.snap.ifaces = [] ∧
    Ev.initscr ∈ (run_main plat_empty 24 []).1 ∧
    (run_main plat_empty 24 []).2 = RunResult.exited 1 (some "no Wi-Fi interfaces installed") := by
  decide

/-- C3 (amended): when the stats source reports zero wireless interfaces
at startup, the process exits with status 1 and the message "no Wi-Fi
interfaces installed" before entering the refresh loop — no `setup()` runs
and nothing is rendered — although the curses screen object was already
initialized at module import (line 53), so "never initialized" does not
hold. -/
theorem wifimon_C3_amended (p : Platform) (hh : Nat) (script : List LoopStep)
    (hw : p.has_wifi_ifaces = true) (he : p.snap.ifaces = []) :
    run_main p hh script =
      ([Ev.initscr], RunResult.exited 1 (some "no Wi-Fi interfaces installed")) ∧
    Ev.setup ∉ (run_main p hh script).1 ∧
    Ev.render ∉ (run_main p hh script).1 ∧
    (run_main p hh script).2 ≠ RunResult.exited 0 none := by
  have hmain : run_main p hh script =
      ([Ev.initscr], RunResult.exited 1 (some "no Wi-Fi interfaces installed")) := by
    simp [run_main, hw, he]
  refine ⟨hmain, ?_, ?_, ?_⟩ <;> rw [hmain] <;> simp

/-- Witness for the amended C3 on the concrete empty-interface platform. -/
theorem wifimon_C3_witness :
    run_main plat_empty 24 [] =
      ([Ev.initscr], RunResult.exited 1 (some "no Wi-Fi interfaces installed")) ∧
    Ev.setup ∉ (run_main plat_empty 24 []).1 ∧
    Ev.render ∉ (run_main plat_empty 24 []).1 ∧
    (run_main plat_empty 24 []).2 ≠ RunResult.exited 0 none :=
  wifimon_C3_amended plat_empty 24 [] rfl rfl

/-- C4: once the loop is entered (capable platform, at least one
interface), teardown runs exactly once on every path that leaves the
loop — quit key, interrupt, or a render failure that propagates. -/
theorem wifimon_C4 (p : Platform) (hh : Nat) (script : List LoopStep)
    (hw : p.has_wifi_ifaces = true) (hne : p.snap.ifaces ≠ [])
    (hend : (run_main p hh script).2 ≠ RunResult.stillRunning) :
    count_td (run_main p hh script).1 = 1 := by
  rcases hloop : run_loop hh p.snap script ⟨0, [], 0⟩ with ⟨evs, e⟩
  have h0 : count_td evs = 0 := by
    have h := run_loop_no_td hh p.snap script ⟨0, [], 0⟩
    rw [hloop] at h
    exact h
  cases e with
  | quit st1 =>
    rw [show run_main p hh script
        = (Ev.initscr :: Ev.setup :: evs ++ [Ev.teardown], RunResult.exited 0 none) from by
      simp [run_main, hw, hne, hloop]]
    simp [count_td, count_td_append, h0]
  | interrupted st1 =>
    rw [show run_main p hh script
        = (Ev.initscr :: Ev.setup :: evs ++ [Ev.teardown], RunResult.exited 0 none) from by
      simp [run_main, hw, hne, hloop]]
    simp [count_td, count_td_append, h0]
  | renderError e1 =>
    rw [show run_main p hh script
        = (Ev.initscr :: Ev.setup :: evs ++ [Ev.teardown], RunResult.crashed 1) from by
      simp [run_main, hw, hne, hloop]]
    simp [count_td, count_td_append, h0]
  | running st1 =>
    exfalso
    apply hend
    rw [show run_main p hh script
        = (Ev.initscr :: Ev.setup :: evs, RunResult.stillRunning) from by
      simp [run_main, hw, hne, hloop]]

/-- Witness for C4: quitting on the first iteration of the sample
platform tears down exactly once. -/
theorem wifimon_C4_witness : count_td (run_main plat1 64 [LoopStep.key 113]).1 = 1 :=
  wifimon_C4 plat1 64 [LoopStep.key 113] rfl (by decide) (by decide)

/-- C6: a `q` keystroke (`ord('q') = 113`) and an interrupt during any
iteration are treated identically — the whole run (trace and outcome) is
the same, the loop ends with exit code 0 and no error, and teardown runs
exactly once; any other key is ignored and the loop continues (provided
the snapshot renders within the window). -/
theorem wifimon_C6 (p : Platform) (hh : Nat) (script : List LoopStep)
    (hw : p.has_wifi_ifaces = true) (hne : p.snap.ifaces ≠ [])
    (hrun : (run_main p hh script).2 = RunResult.stillRunning) :
    run_main p hh (script ++ [LoopStep.key 113])
      = run_main p hh (script ++ [LoopStep.interrupt]) ∧
    (run_main p hh (script ++ [LoopStep.key 113])).2 = RunResult.exited 0 none ∧
    count_td (run_main p hh (script ++ [LoopStep.key 113])).1 = 1 ∧
    (∀ c : Int, c ≠ 113 → render_ok hh p.snap = true →
      (run_main p hh (script ++ [LoopStep.key c])).2 = RunResult.stillRunning) := by
  rcases hloop : run_loop hh p.snap script ⟨0, [], 0⟩ with ⟨evs, e⟩
  cases e with
  | quit st1 => exfalso; simp [run_main, hw, hne, hloop] at hrun
  | interrupted st1 => exfalso; simp [run_main, hw, hne, hloop] at hrun
  | renderError e1 => exfalso; simp [run_main, hw, hne, hloop] at hrun
  | running st1 =>
    obtain ⟨l1, o1, r1⟩ := st1
    have hl0 : l1 = 0 := by
      have h := run_loop_run_lineno hh p.snap script ⟨0, [], 0⟩ evs ⟨l1, o1, r1⟩ hloop rfl
      simpa using h
    subst hl0
    have h0 : count_td evs = 0 := by
      have h := run_loop_no_td hh p.snap script ⟨0, [], 0⟩
      rw [hloop] at h
      exact h
    have h113 : run_loop hh p.snap [LoopStep.key 113] ⟨0, o1, r1⟩
        = ([], LoopEnd.quit ⟨0, o1, r1⟩) := by
      simp [run_loop]
    have hint : run_loop hh p.snap [LoopStep.interrupt] ⟨0, o1, r1⟩
        = ([], LoopEnd.interrupted ⟨0, o1, r1⟩) := by
      simp [run_loop]
    have hq := run_loop_append_running hh p.snap script ⟨0, [], 0⟩ evs ⟨0, o1, r1⟩
      hloop [LoopStep.key 113]
    rw [h113] at hq
    simp only [List.append_nil] at hq
    have hi := run_loop_append_running hh p.snap script ⟨0, [], 0⟩ evs ⟨0, o1, r1⟩
      hloop [LoopStep.interrupt]
    rw [hint] at hi
    simp only [List.append_nil] at hi
    have hm1 : run_main p hh (script ++ [LoopStep.key 113])
        = (Ev.initscr :: Ev.setup :: evs ++ [Ev.teardown], RunResult.exited 0 none) := by
      simp [run_main, hw, hne, hq]
    have hm2 : run_main p hh (script ++ [LoopStep.interrupt])
        = (Ev.initscr :: Ev.setup :: evs ++ [Ev.teardown], RunResult.exited 0 none) := by
      simp [run_main, hw, hne, hi]
    refine ⟨by rw [hm1, hm2], by rw [hm1], ?_, ?_⟩
    · rw [hm1]
      simp [count_td, count_td_append, h0]
    · intro c hc hok
      obtain ⟨w, hwok⟩ : ∃ w, refresh_window hh p.snap ⟨0, [], 0⟩ = Except.ok w := by
        revert hok
        unfold render_ok
        cases hrw : refresh_window hh p.snap ⟨0, [], 0⟩ with
        | ok w => exact fun _ => ⟨w, rfl⟩
        | error e2 => intro hfalse; cases hfalse
      have hrw1 : refresh_window hh p.snap ⟨0, o1, r1⟩
          = Except.ok (out_shift o1 r1 w) := by
        rw [refresh_window_shift, hwok]
        rfl
      have hkeyc : run_loop hh p.snap [LoopStep.key c] ⟨0, o1, r1⟩
          = ([Ev.render], LoopEnd.running ⟨0, o1 ++ w.out, r1 + w.refreshes⟩) := by
        simp [run_loop, hc, hrw1, out_shift]
      have hc2 := run_loop_append_running hh p.snap script ⟨0, [], 0⟩ evs ⟨0, o1, r1⟩
        hloop [LoopStep.key c]
      rw [hkeyc] at hc2
      simp only [] at hc2
      simp [run_main, hw, hne, hc2]

/-- Witness for C6 on the sample platform: quitting immediately exits
cleanly with code 0, while key 110 is ignored and the loop continues. -/
theorem wifimon_C6_witness :
    (run_main plat1 64 ([] ++ [LoopStep.key 113])).2 = RunResult.exited 0 none ∧
    (run_main plat1 64 ([] ++ [LoopStep.key 110])).2 = RunResult.stillRunning :=
  ⟨(wifimon_C6 plat1 64 [] rfl (by decide) (by decide)).2.1,
   (wifimon_C6 plat1 64 [] rfl (by decide) (by decide)).2.2.2 110 (by decide) (by decide)⟩
